import Mathlib

/-!
Verification of the session-acquisition and validation engine of the
Regular-inspection repository.  The Python modules under `src/utils/` are
shallowly embedded as pure Lean functions: browser/network interactions become
explicit environment records, the file system of the cache becomes a function
from keys to file contents, and logging is dropped.  External library calls
(Fernet, base64, json, regular-expression search) are modelled as abstract
codec functions with their contracts stated as hypotheses where needed.
-/

set_option autoImplicit false

namespace RegularInspection

/-! ## Python-style helpers -/

/-- Emptiness of a string (kernel-reducible version). -/
def strIsEmpty (s : String) : Bool :=
  s.data.isEmpty

/-- Truthiness of an optional string, as Python evaluates `if s:` —
`None` and the empty string are falsy. -/
def strTruthy : Option String → Bool
  | none => false
  | some s => !strIsEmpty s

/-- Python `a or b` on two optional-string values: the left operand is kept
when it is truthy, otherwise the right operand is returned. -/
def pyOr (a b : Option String) : Option String :=
  if strTruthy a then a else b

/-- Does list `l` start with list `p`? -/
def listStartsWith : List Char → List Char → Bool
  | _, [] => true
  | [], _ :: _ => false
  | a :: as, b :: bs => a = b && listStartsWith as bs

/-- Does list `hay` contain `pat` as a contiguous sublist? -/
def hasSubList (pat : List Char) : List Char → Bool
  | [] => listStartsWith [] pat
  | h :: t => listStartsWith (h :: t) pat || hasSubList pat t

/-- Python `pat in s` on strings: substring test. -/
def containsStr (s pat : String) : Bool :=
  hasSubList pat.data s.data

/-- Python `str.isdigit` (restricted to ASCII digits): nonempty and all digits. -/
def strIsDigit (s : String) : Bool :=
  !strIsEmpty s && s.data.all Char.isDigit

/-- ASCII lower-casing of one character. -/
def charToLower (c : Char) : Char :=
  if 'A' ≤ c ∧ c ≤ 'Z' then Char.ofNat (c.toNat + 32) else c

/-- Python `str.lower` (ASCII; sufficient for the vocabulary the engine
searches for). -/
def strToLower (s : String) : String :=
  ⟨s.data.map charToLower⟩

/-! ## Cookies and cookie dictionaries

A Playwright cookie record; only the fields the engine reads are kept. -/

structure Cookie where
  name : String
  value : String
  deriving DecidableEq

/-- A Python `dict[str, str]` modelled as an ordered association list with
unique keys (insertion order, later writes overwrite in place). -/
abbrev Dict := List (String × String)

/-- Insertion into a Python dict: overwrite in place if the key exists,
else append. -/
def dictInsert (d : Dict) (k v : String) : Dict :=
  if d.any (fun kv => kv.1 = k) then
    d.map (fun kv => if kv.1 = k then (k, v) else kv)
  else
    d ++ [(k, v)]

/-- `{cookie["name"]: cookie["value"] for cookie in cookies}`. -/
def dictOfCookies (cs : List Cookie) : Dict :=
  cs.foldl (fun d c => dictInsert d c.name c.value) []

/-- Python `dict.update`. -/
def dictUpdate (d : Dict) (kvs : Dict) : Dict :=
  kvs.foldl (fun acc kv => dictInsert acc kv.1 kv.2) d

/-- Python `k in d`. -/
def dictHasKey (d : Dict) (k : String) : Bool :=
  d.any (fun kv => kv.1 = k)

/-! ## SessionCache (src/utils/session_cache.py)

Sensitive data serialized into the encrypted blob:
`{"cookies": cookies, "user_id": user_id}`. -/

structure SensitiveData where
  cookies : List Cookie
  user_id : Option String
  deriving DecidableEq

/-- The configured Fernet cipher.  `dec` returns `none` exactly when the
library raises `InvalidToken`. -/
structure Cipher where
  enc : String → String
  dec : String → Option String

/-- External library functions used by the cache: base64 (the fallback tier
when no key is configured), the legacy XOR decryption derived from the raw
key, and JSON serialization of the sensitive data.  `none` models a raised
exception. -/
structure Libs where
  b64enc : String → String
  b64dec : String → Option String
  xorDec : String → Option String
  jsonEnc : SensitiveData → String
  jsonDec : String → Option SensitiveData

namespace SessionCache

/-- `SessionCache._encrypt_data`: Fernet when a cipher is configured, plain
base64 otherwise. -/
def encrypt_data (libs : Libs) (cipher : Option Cipher) (data : String) : String :=
  match cipher with
  | some c => c.enc data
  | none => libs.b64enc data

/-- `SessionCache._decrypt_data`: with a cipher, try Fernet and fall back to
the legacy XOR scheme on `InvalidToken`; without a cipher, base64-decode.
`none` models the method raising. -/
def decrypt_data (libs : Libs) (cipher : Option Cipher) (data : String) : Option String :=
  match cipher with
  | some c =>
    match c.dec data with
    | some s => some s
    | none => libs.xorDec data
  | none => libs.b64dec data

/-- One cache file on disk (`{provider}_{account_name}.json`), in the current
format that carries an `encrypted_data` blob.  Timestamps are seconds. -/
structure CacheFile where
  account_name : String
  provider : String
  encrypted_data : String
  username : Option String
  created_at : Nat
  expires_at : Nat
  deriving DecidableEq

/-- Contents of a stored file: either the expected JSON shape or a file that
`json.load` rejects. -/
inductive FileContent where
  | invalid
  | valid (cf : CacheFile)
  deriving DecidableEq

/-- The cache directory, keyed by `(provider, account_name)` — one file per
pair, mirroring the file name `{provider}_{account_name}.json`. -/
abbrev Store := (String × String) → Option FileContent

def storeSet (s : Store) (k : String × String) (v : FileContent) : Store :=
  fun k2 => if k2 = k then some v else s k2

def storeErase (s : Store) (k : String × String) : Store :=
  fun k2 => if k2 = k then none else s k2

/-- `SessionCache.delete`. -/
def delete (s : Store) (account_name provider : String) : Store × Bool :=
  if (s (provider, account_name)).isSome then
    (storeErase s (provider, account_name), true)
  else
    (s, false)

/-- `SessionCache.save`: serializes `{"cookies": ..., "user_id": ...}`,
encrypts it, and writes the cache file with
`expires_at = now + expiry_hours hours`.  Returns the new store and the
method's boolean result. -/
def save (libs : Libs) (cipher : Option Cipher) (s : Store)
    (account_name provider : String) (cookies : List Cookie)
    (user_id username : Option String) (expiry_hours : Nat) (now : Nat) :
    Store × Bool :=
  let blob := encrypt_data libs cipher (libs.jsonEnc ⟨cookies, user_id⟩)
  let cf : CacheFile :=
    { account_name := account_name
      provider := provider
      encrypted_data := blob
      username := username
      created_at := now
      expires_at := now + expiry_hours * 3600 }
  (storeSet s (provider, account_name) (.valid cf), true)

/-- The dictionary `load` hands back on success: the file's fields merged
with the decrypted cookies and user id. -/
structure LoadResult where
  account_name : String
  provider : String
  username : Option String
  created_at : Nat
  expires_at : Nat
  cookies : List Cookie
  user_id : Option String
  deriving DecidableEq

/-- `SessionCache.load`.  Mirrors the source's handler structure: a file that
is not valid JSON raises `json.JSONDecodeError`, which deletes the file; an
expired entry is deleted through `self.delete`; a decryption failure raises a
non-JSON exception, which the final generic handler turns into `None`
WITHOUT deleting the file; a blob that decrypts to a string `json.loads`
rejects again raises `json.JSONDecodeError` and deletes the file. -/
def load (libs : Libs) (cipher : Option Cipher) (s : Store)
    (account_name provider : String) (now : Nat) :
    Option LoadResult × Store :=
  match s (provider, account_name) with
  | none => (none, s)
  | some .invalid => (none, (delete s account_name provider).1)
  | some (.valid cf) =>
    if cf.expires_at < now then
      (none, (delete s account_name provider).1)
    else
      match decrypt_data libs cipher cf.encrypted_data with
      | none => (none, s)
      | some plain =>
        match libs.jsonDec plain with
        | none => (none, (delete s account_name provider).1)
        | some sd =>
          (some { account_name := cf.account_name
                  provider := cf.provider
                  username := cf.username
                  created_at := cf.created_at
                  expires_at := cf.expires_at
                  cookies := sd.cookies
                  user_id := sd.user_id }, s)

end SessionCache

/-! ## Concrete instances used by witnesses -/

/-- Drop the first `n` characters of a string (kernel-reducible version). -/
def strDropChars (s : String) (n : Nat) : String :=
  ⟨s.data.drop n⟩

/-- Kernel-reducible test that `s` starts with the single character `c`. -/
def strStartsWithChar (s : String) (c : Char) : Bool :=
  listStartsWith s.data [c]

/-- A concrete Fernet-like cipher for witness evaluation: tags the plaintext
and only untags strings it produced itself. -/
def testCipher : Cipher :=
  { enc := fun s => "F" ++ s
    dec := fun s => if strStartsWithChar s 'F' then some (strDropChars s 1) else none }

/-- The cookie list used by the witnesses. -/
def demoCookies : List Cookie := [{ name := "session", value := "abc" }]

/-- Concrete library codecs for witness evaluation, satisfying the pointwise
round-trip contracts at the witness inputs. -/
def testLibs : Libs :=
  { b64enc := fun s => "B" ++ s
    b64dec := fun s => if strStartsWithChar s 'B' then some (strDropChars s 1) else none
    xorDec := fun _ => none
    jsonEnc := fun _ => "J"
    jsonDec := fun s => if s = "J" then some ⟨demoCookies, some "42"⟩ else none }

def emptyStore : SessionCache.Store := fun _ => none

/-- A cache file whose blob decrypts under no scheme of `testLibs`/`testCipher`. -/
def corruptFile : SessionCache.CacheFile :=
  { account_name := "acc", provider := "prov", encrypted_data := "garbage"
    username := some "bob", created_at := 0, expires_at := 100000 }

def corruptStore : SessionCache.Store :=
  SessionCache.storeSet emptyStore ("prov", "acc") (.valid corruptFile)

/-- A cache file whose blob decrypts (to "bad") but whose plaintext is not
valid JSON for `testLibs`. -/
def badJsonFile : SessionCache.CacheFile :=
  { account_name := "acc", provider := "prov", encrypted_data := "Fbad"
    username := some "bob", created_at := 0, expires_at := 100000 }

def badJsonStore : SessionCache.Store :=
  SessionCache.storeSet emptyStore ("prov", "acc") (.valid badJsonFile)

/-! ## Events

Observable actions of the authenticators, recorded as a trace so that
claims about which channels/sources are consulted can be stated. -/

inductive Ev where
  | navAttempt
  | cfWait
  | apiCall
  | lsExtract
  | pageExtract
  | heuristicFallback
  | initPage
  | waitMs (ms : Nat)
  | cookiesRead
  | enhanceInitial
  | enhanceFinal
  | reloadPage
  | gotoLogin
  | paramAttempt
  | challengeAttempt (k : Nat)
  | saveSession (account provider : String) (cookies : List Cookie)
      (user_id username : Option String)
  deriving DecidableEq

/-! ## Identity extraction helpers (src/utils/auth/base.py) -/

/-- The parsed `localStorage.getItem('user')` blob; `none` covers both an
absent key and a JSON parse failure. -/
structure LsUser where
  id : Option String
  username : Option String
  name : Option String
  email : Option String
  deriving DecidableEq

/-- `Authenticator._extract_user_from_localstorage`: identity is returned
only when the stored object carries a truthy `id`. -/
def extract_user_from_localstorage (ls : Option LsUser) : Option String × Option String :=
  match ls with
  | none => (none, none)
  | some u =>
    let username := pyOr (pyOr u.username u.name) u.email
    if strTruthy u.id then (u.id, username) else (none, none)

/-- `Authenticator._extract_user_from_page`: `urlUserId` is the result of
the library call `re.search(r'/user/(\w+)', current_url)`; `elemUserIds`
are the `data-user-id`/`data-userid` attributes of the matched elements
(first five are scanned, first all-digit value wins). -/
def extract_user_from_page (urlUserId : Option String) (elemUserIds : List (Option String)) :
    Option String × Option String :=
  match urlUserId with
  | some uid => (some uid, none)
  | none =>
    match (elemUserIds.take 5).findSome? (fun a =>
      match a with
      | some v => if strIsDigit v then some v else none
      | none => none) with
    | some v => (some v, none)
    | none => (none, none)

/-! ## Cookie validator (src/utils/auth/cookies.py) -/

/-- The fields the validator reads from the identity endpoint's `data`. -/
structure UserData where
  id : Option String
  user_id : Option String
  userId : Option String
  username : Option String
  name : Option String
  email : Option String
  deriving DecidableEq

/-- The parsed JSON body; `data` is `none` when the field is absent or falsy. -/
structure ApiBody where
  success : Bool
  data : Option UserData
  deriving DecidableEq

/-- An HTTP response of the identity endpoint; `body = none` models
`response.json()` raising. -/
structure ApiResponse where
  status : Nat
  contentType : String
  location : String
  body : Option ApiBody
  deriving DecidableEq

/-- The result quadruple of `_validate_cookies_with_precheck`. -/
structure Verdict where
  valid : Bool
  user_id : Option String
  username : Option String
  error : Option String
  deriving DecidableEq

/-- Environment of one `_validate_cookies_with_precheck` run. -/
structure PrecheckEnv where
  navResults : List Bool
  pageContent : String
  currentUrl : String
  cfBypassOk : Bool
  pageContentAfterCf : String
  currentUrlAfterCf : String
  api : Option ApiResponse
  lsUser : Option LsUser
  urlUserId : Option String
  elemUserIds : List (Option String)
  contextCookies : List Cookie
  accountName : String

/-- The Cloudflare interception markers scanned for (already lower-cased,
as the source compares `indicator.lower() in page_content.lower()`). -/
def cfIndicators : List String :=
  ["checking your browser", "just a moment", "cf-challenge",
   "challenge-platform", "cloudflare", "ddos protection"]

def hasCfIndicator (content : String) : Bool :=
  cfIndicators.any (fun m => containsStr (strToLower content) m)

/-- Number of `page.goto` attempts over the test URLs: the loop stops at the
first success. -/
def navAttemptsCount : List Bool → Nat
  | [] => 0
  | true :: _ => 1
  | false :: t => 1 + navAttemptsCount t

/-- Steps 3-6 of `_validate_cookies_with_precheck`, applied to the page
content and URL that are current after the optional Cloudflare wait.
Step 3 (the login-redirect check) only logs and is dropped. -/
def precheck_rest (env : PrecheckEnv) (url : String) (evs : List Ev) : Verdict × List Ev :=
  let evs := evs ++ [Ev.apiCall]
  let apiResult : Option (Option String × Option String) :=
    match env.api with
    | none => none
    | some r =>
      if r.status = 200 then
        if containsStr (strToLower r.contentType) "application/json" then
          match r.body with
          | none => none
          | some b =>
            if b.success then
              match b.data with
              | none => none
              | some d =>
                let uid := pyOr (pyOr d.id d.user_id) d.userId
                let uname := pyOr (pyOr d.username d.name) d.email
                if strTruthy uid || strTruthy uname then some (uid, uname) else none
            else none
        else none
      else none
  match apiResult with
  | some (uid, uname) =>
    (⟨true, if strTruthy uid then uid else none, uname, none⟩, evs)
  | none =>
    let evs := evs ++ [Ev.lsExtract]
    let p1 := extract_user_from_localstorage env.lsUser
    let step5 : (Option String × Option String) × List Ev :=
      if !(strTruthy p1.1 || strTruthy p1.2) then
        (extract_user_from_page env.urlUserId env.elemUserIds, evs ++ [Ev.pageExtract])
      else (p1, evs)
    let uid2 := step5.1.1
    let uname2 := step5.1.2
    let evs := step5.2
    if strTruthy uid2 || strTruthy uname2 then
      (⟨true, uid2, uname2, none⟩, evs)
    else
      if !containsStr (strToLower url) "/login" then
        let evs := evs ++ [Ev.heuristicFallback]
        let fallback_id :=
          match env.contextCookies.find? (fun c =>
            (containsStr (strToLower c.name) "user" || containsStr (strToLower c.name) "id")
              && strIsDigit c.value) with
          | some c => c.value
          | none => env.accountName
        (⟨true, some fallback_id, none, none⟩, evs)
      else
        (⟨false, none, none,
          some "Unable to validate cookies through any method and page is at login"⟩, evs)

/-- `CookiesAuthenticator._validate_cookies_with_precheck`. -/
def validate_cookies_with_precheck (env : PrecheckEnv) : Verdict × List Ev :=
  let navEvs := List.replicate (navAttemptsCount env.navResults) Ev.navAttempt
  if !env.navResults.any id then
    (⟨false, none, none, some "Unable to navigate to any test URL"⟩, navEvs)
  else
    if hasCfIndicator env.pageContent then
      let evs := navEvs ++ [Ev.cfWait]
      if !env.cfBypassOk then
        (⟨false, none, none, some "Cloudflare challenge not passed"⟩, evs)
      else
        precheck_rest env env.currentUrlAfterCf evs
    else
      precheck_rest env env.currentUrl navEvs

/-! ## Email login-success check (src/utils/auth/email.py) -/

/-- Environment of one `_check_login_success` run. -/
structure CheckEnv where
  url : String
  title : String
  userElementsFound : Bool
  errorTexts : List String
  cookies : List Cookie
  lsThrows : Bool
  lsUserPresent : Bool

def errKeywords : List String :=
  ["失败", "错误", "error", "invalid", "incorrect", "验证码", "captcha"]

/-- `EmailAuthenticator._check_error_messages`: the texts of the elements
matched by the error selectors, in order; the first nonempty text carrying a
real-error keyword aborts with a failure message. -/
def check_error_messages (ts : List String) : Option String :=
  ts.findSome? (fun t =>
    if !strIsEmpty t && errKeywords.any (fun k => containsStr (strToLower t) k) then
      some ("Login failed: " ++ t)
    else none)

def wafOnlyCookieNames : List String :=
  ["acw_tc", "cdn_sec_tc", "acw_sc__v2", "__cf_bm", "cf_clearance"]

def sessionCookieNames : List String :=
  ["session", "sessionid", "connect.sid", "JSESSIONID", "PHPSESSID"]

/-- `EmailAuthenticator._check_login_success`. -/
def check_login_success (env : CheckEnv) : Bool × Option String :=
  let login_in_url := containsStr (strToLower env.url) "login"
  let page_title_ok :=
    !containsStr (strToLower env.title) "login" && containsStr (strToLower env.title) "console"
  match check_error_messages env.errorTexts with
  | some m => (false, some m)
  | none =>
    let dict := dictOfCookies env.cookies
    let has_session := sessionCookieNames.any (fun n => dictHasKey dict n)
    let wafGate :=
      if !has_session then
        (dict.filter (fun kv => !wafOnlyCookieNames.any (fun n => n = kv.1))).length = 0
      else false
    if wafGate then
      (false, some "Login blocked by WAF - only WAF cookies obtained, no session cookies")
    else
      if !env.lsThrows && !env.lsUserPresent && !has_session then
        (false, some "Login blocked by WAF - no session cookies and empty localStorage")
      else
        if login_in_url then
          (false, some "Login failed - still on login page (may need captcha)")
        else
          if !login_in_url || env.userElementsFound || page_title_ok then
            if has_session || decide (5 < dict.length) then (true, none)
            else (false, some "Login may be blocked by WAF - insufficient cookies")
          else (true, none)

/-! ## OAuth authenticators — cookie acquisition and parameter retrieval

`LinuxDoAuthenticator.authenticate` (linuxdo.py lines 163-297) and
`GitHubAuthenticator.authenticate` (github.py lines 144-279) are
line-for-line parallel in this range (cache restore, page initialization,
initial cookie read, conditional cloudscraper enhancement, the 3-attempt
parameter-retrieval loop with escalating waits and recovery strategies, and
the final enhancement pass).  The flow is therefore defined once,
parameterized by the payload type of the method-parameter call, and
instantiated per authenticator with its message strings. -/

/-- The dictionary `SessionCache.load` hands to an OAuth authenticator on a
cache hit. -/
structure CachedSession where
  cookies : List Cookie
  user_id : Option String
  username : Option String
  deriving DecidableEq

/-- Environment of one OAuth `authenticate` run, up to parameter retrieval.
`cookiesSeq k` is the result of the k-th `context.cookies()` read (0 = the
initial read, k+1 = the read inside loop iteration k); `wafInitial` and
`wafFinal` are the results of `_get_waf_cookies` at its two call sites;
`paramSeq k` is the result of the k-th parameter-retrieval attempt (0-2 in
the loop, 3 = the post-enhancement attempt). -/
structure OAuthEnv (α : Type) where
  skipInCI : Bool
  cacheLoad : Option CachedSession
  addCookiesOk : Bool
  initPageOk : Bool
  isCI : Bool
  cookiesSeq : Nat → List Cookie
  wafInitial : Dict
  wafFinal : Dict
  paramSeq : Nat → Option α

/-- Outcome of the embedded prefix: an early return (cache hit or failure)
or the point where the flow proceeds to the provider-specific OAuth dance
with the retrieved parameters. -/
inductive PrefixResult (α : Type) where
  | success (cookies : Dict) (user_id username : Option String)
  | failure (error : String)
  | proceed (params : α) (cookies : Dict)
  deriving DecidableEq

/-- Recovery actions taken before loop iteration `retry`: an escalating wait
of `10000 * retry` ms, then a page reload (retry 1) or a re-navigation to
the login page (retry 2). -/
def retryRecoveryEvents (retry : Nat) : List Ev :=
  if retry = 0 then []
  else
    [Ev.waitMs (10000 * retry)] ++
      (if retry = 1 then [Ev.reloadPage, Ev.waitMs 5000]
       else if retry = 2 then [Ev.gotoLogin, Ev.waitMs 10000] else [])

/-- The `for retry in range(3)` parameter-retrieval loop, recursing over the
list of remaining retry indices (`[0, 1, 2]` at the call site), including
the special handling of the last iteration (`rest = []`): one
`_get_waf_cookies` enhancement pass and — only when it yields cookies — one
more retrieval attempt on the updated jar. -/
def oauth_param_loop {α : Type} (env : OAuthEnv α) :
    List Nat → Dict → Option α × Dict × List Ev
  | [], dict => (none, dict, [])
  | retry :: rest, _ =>
    let dict1 := dictOfCookies (env.cookiesSeq (retry + 1))
    let evs := retryRecoveryEvents retry ++ [Ev.cookiesRead, Ev.paramAttempt]
    match env.paramSeq retry with
    | some p => (some p, dict1, evs)
    | none =>
      if rest = [] then
        let evs2 := evs ++ [Ev.enhanceFinal]
        if env.wafFinal = [] then (none, dict1, evs2)
        else
          let dict2 := dictUpdate dict1 env.wafFinal
          (env.paramSeq 3, dict2, evs2 ++ [Ev.paramAttempt])
      else
        let r := oauth_param_loop env rest dict1
        (r.1, r.2.1, evs ++ r.2.2)

/-- The OAuth `authenticate` flow past the cache block: page initialization,
the extra Cloudflare wait (15 s in CI, 10 s otherwise), the initial cookie
read, the cloudscraper enhancement invoked only when fewer than 2 cookies
were obtained (and adopted only when it yields strictly more), then the
parameter-retrieval loop. -/
def oauth_continue_flow {α : Type} (env : OAuthEnv α)
    (failMsg ciSuffix : String) : PrefixResult α × List Ev :=
  let evs0 : List Ev := [Ev.initPage]
  if !env.initPageOk then (.failure "Cloudflare verification timeout", evs0)
  else
    let evs1 := evs0 ++ [Ev.waitMs (if env.isCI then 15000 else 10000)]
    let d0 := dictOfCookies (env.cookiesSeq 0)
    let evs2 := evs1 ++ [Ev.cookiesRead]
    let step2 : Dict × List Ev :=
      if d0.length < 2 then
        let evs3 := evs2 ++ [Ev.enhanceInitial]
        if env.wafInitial ≠ [] ∧ d0.length < env.wafInitial.length then
          (env.wafInitial, evs3)
        else (d0, evs3)
      else (d0, evs2)
    let r := oauth_param_loop env [0, 1, 2] step2.1
    match r.1 with
    | none => (.failure (failMsg ++ (if env.isCI then ciSuffix else "")),
        step2.2 ++ r.2.2)
    | some p => (.proceed p r.2.1, step2.2 ++ r.2.2)

/-- The shared prefix of the two OAuth `authenticate` methods: CI skip, then
the cache block — an entry with a nonempty cookie list whose cookies restore
without throwing and whose user_id is truthy short-circuits to success;
every other cache outcome falls through to the acquisition flow. -/
def oauth_authenticate_entry {α : Type} (env : OAuthEnv α)
    (skipMsg failMsg ciSuffix : String) : PrefixResult α × List Ev :=
  if env.skipInCI then (.failure skipMsg, [])
  else
    match env.cacheLoad with
    | none => oauth_continue_flow env failMsg ciSuffix
    | some cd =>
      if cd.cookies = [] then oauth_continue_flow env failMsg ciSuffix
      else if !env.addCookiesOk then oauth_continue_flow env failMsg ciSuffix
      else if strTruthy cd.user_id then
        (.success (dictOfCookies cd.cookies) cd.user_id cd.username, [])
      else oauth_continue_flow env failMsg ciSuffix

/-- `LinuxDoAuthenticator.authenticate`, lines 163-297 (parameter payload:
the LinuxDO OAuth client id). -/
def linuxdo_authenticate_entry (env : OAuthEnv String) :
    PrefixResult String × List Ev :=
  oauth_authenticate_entry env
    "Linux.do authentication skipped in CI environment (configured via CI_DISABLED_AUTH_METHODS)"
    "Failed to get LinuxDO client_id after 3 retries"
    " (CI environment detected - Linux.do authentication may require manual setup or disabling via CI_DISABLED_AUTH_METHODS=linux.do)"

/-- The payload of `GitHubAuthenticator._get_github_oauth_params`. -/
structure GithubOAuthParams where
  client_id : String
  auth_state : String
  deriving DecidableEq

/-- `GitHubAuthenticator.authenticate`, lines 144-279. -/
def github_authenticate_entry (env : OAuthEnv GithubOAuthParams) :
    PrefixResult GithubOAuthParams × List Ev :=
  oauth_authenticate_entry env
    "GitHub authentication skipped in CI environment (configured via CI_DISABLED_AUTH_METHODS)"
    "Failed to get GitHub OAuth parameters after 3 retries"
    " (CI environment detected - GitHub authentication may require manual cookie setup or disabling via CI_DISABLED_AUTH_METHODS=github)"

/-! ## Challenge waiter (src/utils/auth/base.py, `_wait_for_cloudflare_challenge`)

Real time is abstracted by a per-attempt poll budget: the number of
iterations the per-attempt wait ceiling allows the inner polling loop. -/

/-- What the page shows at one poll: URL, title, content, and the number of
login-form elements the selector query finds. -/
structure PageObs where
  url : String
  title : String
  content : String
  loginIndicators : Nat
  deriving DecidableEq

/-- The interstitial markers of the challenge waiter (content is
lower-cased before the test). -/
def cfChallengeMarkers : List String :=
  ["just a moment", "checking your browser", "cloudflare", "ddos protection"]

def hasCfMarkers (content : String) : Bool :=
  cfChallengeMarkers.any (fun m => containsStr (strToLower content) m)

/-- The title test paired with the marker test:
`"verification" in page_title.lower() or "checking" in page_title.lower()`. -/
def titleBusy (title : String) : Bool :=
  containsStr (strToLower title) "verification" || containsStr (strToLower title) "checking"

/-- Environment of one challenge wait: the skip flag, the stream of page
observations (indexed by a global poll counter), and the poll budget of each
attempt. -/
structure ChallengeEnv where
  skipCheck : Bool
  obs : Nat → PageObs
  pollBudget : Nat → Nat

/-- The inner polling loop of one attempt: markers plus a busy title keep
waiting; a login URL without markers, or a visible login-form element,
resolves the challenge; otherwise wait and poll again.  Returns whether
verification passed and the next poll index. -/
def challenge_poll_loop (obs : Nat → PageObs) : Nat → Nat → Bool × Nat
  | idx, 0 => (false, idx)
  | idx, fuel + 1 =>
    let o := obs idx
    if hasCfMarkers o.content && titleBusy o.title then
      challenge_poll_loop obs (idx + 1) fuel
    else if containsStr (strToLower o.url) "login" && !hasCfMarkers o.content then
      (true, idx)
    else if 0 < o.loginIndicators then
      (true, idx)
    else
      challenge_poll_loop obs (idx + 1) fuel

/-- The `for retry in range(3)` loop of the waiter: attempt 1 reloads the
page first, attempt 2 re-navigates to the login page first; a passed attempt
returns True, and the LAST attempt returns True even when it times out (the
documented optimism: detection may be a false positive). -/
def challenge_retry_loop (env : ChallengeEnv) : List Nat → Nat → Bool × List Ev
  | [], _ => (true, [])
  | retry :: rest, idx =>
    let strat : List Ev :=
      if retry = 1 then [Ev.reloadPage] else if retry = 2 then [Ev.gotoLogin] else []
    let r := challenge_poll_loop env.obs idx (env.pollBudget retry)
    if r.1 then (true, strat ++ [Ev.challengeAttempt retry])
    else if rest = [] then (true, strat ++ [Ev.challengeAttempt retry])
    else
      let t := challenge_retry_loop env rest r.2
      (t.1, strat ++ [Ev.challengeAttempt retry] ++ t.2)

/-- `Authenticator._wait_for_cloudflare_challenge` (every exit of the source
returns True; the structure of the attempts is kept so that the trace shows
the recovery strategies that ran). -/
def wait_for_cloudflare_challenge (env : ChallengeEnv) : Bool × List Ev :=
  if env.skipCheck then (true, [])
  else challenge_retry_loop env [0, 1, 2] 0

/-! ## Email authenticator (src/utils/auth/email.py, `authenticate`)

The trace records the saves performed (`session_cache.save` at lines
340-351), which is what the cache-write invariant is about. -/

/-- `Authenticator._extract_user_info`: the identity API is tried first; a
non-200 status or a raised exception (including a JSON parse failure) falls
back to page extraction; a 200 body without identity yields (None, None)
without any page fallback. -/
def extract_user_info (api : Option ApiResponse) (urlUserId : Option String)
    (elemUserIds : List (Option String)) : Option String × Option String :=
  match api with
  | none => extract_user_from_page urlUserId elemUserIds
  | some r =>
    if r.status = 200 then
      match r.body with
      | none => extract_user_from_page urlUserId elemUserIds
      | some b =>
        if b.success then
          match b.data with
          | none => (none, none)
          | some d =>
            let uid := pyOr (pyOr d.id d.user_id) d.userId
            let uname := pyOr (pyOr d.username d.name) d.email
            if strTruthy uid || strTruthy uname then
              ((if strTruthy uid then uid else none), uname)
            else (none, none)
        else (none, none)
    else extract_user_from_page urlUserId elemUserIds

/-- The result dictionary of an `authenticate` run. -/
structure AuthResult where
  success : Bool
  cookies : Dict
  user_id : Option String
  username : Option String
  error : Option String
  deriving DecidableEq

/-- Environment of one `EmailAuthenticator.authenticate` run. -/
structure EmailEnv where
  initPageOk : Bool
  emailTabFound : Bool
  emailInputFound : Bool
  passwordInputFound : Bool
  fillPasswordError : Option String
  loginButtonFound : Bool
  check : CheckEnv
  cookiesFinal : List Cookie
  lsUser : Option LsUser
  userInfoApi : Option ApiResponse
  urlUserId : Option String
  elemUserIds : List (Option String)
  accountName : String
  provider : String

/-- A failed `authenticate` result. -/
def emailFail (e : String) : AuthResult :=
  { success := false, cookies := [], user_id := none, username := none, error := some e }

/-- `EmailAuthenticator.authenticate`. -/
def email_authenticate (env : EmailEnv) : AuthResult × List Ev :=
  let evs : List Ev := [Ev.initPage]
  if !env.initPageOk then (emailFail "Cloudflare verification timeout", evs)
  else if !env.emailInputFound then (emailFail "Email input field not found", evs)
  else if !env.passwordInputFound then (emailFail "Password input field not found", evs)
  else
    match env.fillPasswordError with
    | some e => (emailFail e, evs)
    | none =>
      if !env.loginButtonFound then (emailFail "Login button not found", evs)
      else
        let chk := check_login_success env.check
        if !chk.1 then
          ({ success := false, cookies := [], user_id := none, username := none
             error := chk.2 }, evs)
        else
          let dict := dictOfCookies env.cookiesFinal
          let p1 := extract_user_from_localstorage env.lsUser
          let p2 :=
            if !strTruthy p1.1 then
              extract_user_info env.userInfoApi env.urlUserId env.elemUserIds
            else p1
          ({ success := true, cookies := dict, user_id := p2.1, username := p2.2
             error := none },
           evs ++ [Ev.saveSession env.accountName env.provider env.cookiesFinal p2.1 p2.2])

/-! ## Concrete environments for witnesses and counterexamples -/

def c4Data : UserData :=
  { id := some "42", user_id := none, userId := none
    username := some "bob", name := none, email := none }

def c4Resp : ApiResponse :=
  { status := 200, contentType := "application/json", location := ""
    body := some { success := true, data := some c4Data } }

/-- A run in which the authoritative identity endpoint answers with identity
fields while every later source would disagree (a page heuristic would
suggest a different identity). -/
def c4Env : PrecheckEnv :=
  { navResults := [true]
    pageContent := "welcome"
    currentUrl := "https://example.com/panel"
    cfBypassOk := true
    pageContentAfterCf := ""
    currentUrlAfterCf := ""
    api := some c4Resp
    lsUser := some { id := some "999", username := some "eve", name := none, email := none }
    urlUserId := some "999"
    elemUserIds := [some "999"]
    contextCookies := [{ name := "uid", value := "999" }]
    accountName := "acct1" }

/-- A cookie-precheck run holding only the firewall cookie `acw_tc`, with no
identity available from any source and a non-login current page. -/
def wafOnlyPrecheckEnv : PrecheckEnv :=
  { navResults := [true]
    pageContent := "welcome"
    currentUrl := "https://example.com/panel"
    cfBypassOk := true
    pageContentAfterCf := ""
    currentUrlAfterCf := ""
    api := none
    lsUser := none
    urlUserId := none
    elemUserIds := []
    contextCookies := [{ name := "acw_tc", value := "xyz" }]
    accountName := "acct1" }

def cacheHitSession : CachedSession :=
  { cookies := demoCookies, user_id := some "42", username := some "bob" }

/-- An OAuth run with a valid cache hit carrying an identity. -/
def cacheHitEnvL : OAuthEnv String :=
  { skipInCI := false, cacheLoad := some cacheHitSession, addCookiesOk := true
    initPageOk := true, isCI := false, cookiesSeq := fun _ => []
    wafInitial := [], wafFinal := [], paramSeq := fun _ => none }

def cacheHitEnvG : OAuthEnv GithubOAuthParams :=
  { skipInCI := false, cacheLoad := some cacheHitSession, addCookiesOk := true
    initPageOk := true, isCI := false, cookiesSeq := fun _ => []
    wafInitial := [], wafFinal := [], paramSeq := fun _ => none }

/-- An OAuth run whose cache entry carries a user_id but an EMPTY cookie
list; everything downstream fails. -/
def emptyCacheCookiesEnvL : OAuthEnv String :=
  { skipInCI := false
    cacheLoad := some { cookies := [], user_id := some "42", username := some "bob" }
    addCookiesOk := true, initPageOk := true, isCI := false
    cookiesSeq := fun _ => [], wafInitial := [], wafFinal := []
    paramSeq := fun _ => none }

/-- An OAuth run with a cache miss, two initial cookies, and every
parameter-retrieval attempt and enhancement pass failing. -/
def allFailEnvL : OAuthEnv String :=
  { skipInCI := false, cacheLoad := none, addCookiesOk := true
    initPageOk := true, isCI := false
    cookiesSeq := fun _ => [{ name := "a", value := "1" }, { name := "b", value := "2" }]
    wafInitial := [], wafFinal := [], paramSeq := fun _ => none }

def allFailEnvG : OAuthEnv GithubOAuthParams :=
  { skipInCI := false, cacheLoad := none, addCookiesOk := true
    initPageOk := true, isCI := false
    cookiesSeq := fun _ => [{ name := "a", value := "1" }, { name := "b", value := "2" }]
    wafInitial := [], wafFinal := [], paramSeq := fun _ => none }

/-- A challenge wait whose page never clears the interstitial: markers
always present, busy title, no login-form element. -/
def stuckChallengeEnv : ChallengeEnv :=
  { skipCheck := false
    obs := fun _ =>
      { url := "https://example.com/login", title := "Verification"
        content := "Just a moment...", loginIndicators := 0 }
    pollBudget := fun _ => 2 }

def sessionOnlyCookies : List Cookie := [{ name := "session", value := "s" }]

/-- A successful email login run in which every identity source fails: the
check passes through the recognized session cookie, but user_id and username
stay None, and the 1-cookie session is still saved. -/
def emailSaveEnv : EmailEnv :=
  { initPageOk := true, emailTabFound := true, emailInputFound := true
    passwordInputFound := true, fillPasswordError := none, loginButtonFound := true
    check :=
      { url := "https://example.com/panel", title := "Console"
        userElementsFound := true, errorTexts := [], cookies := sessionOnlyCookies
        lsThrows := false, lsUserPresent := true }
    cookiesFinal := sessionOnlyCookies
    lsUser := none, userInfoApi := none, urlUserId := none, elemUserIds := []
    accountName := "acct1", provider := "prov" }

/-- An email login-success check over a cookie jar holding only firewall
cookies; the URL is deliberately a non-login page. -/
def wafOnlyCheckEnv : CheckEnv :=
  { url := "https://example.com/panel"
    title := "Console"
    userElementsFound := true
    errorTexts := []
    cookies := [{ name := "acw_tc", value := "x" }, { name := "cf_clearance", value := "y" }]
    lsThrows := false
    lsUserPresent := true }

/-! ## Claims about the SessionCache -/

/-- C1: saving a session and loading it again for the same account and
provider, before the expiry time, returns the cookies, user_id and username
passed to save, for any configured scheme (Fernet cipher or the Base64
fallback when `cipher = none`), given the library round-trip contracts at the
stored value. -/
theorem sessionCache_save_load_roundtrip
    (libs : Libs) (cipher : Option Cipher) (s : SessionCache.Store)
    (account provider : String) (cookies : List Cookie)
    (uid uname : Option String) (hours now now2 : Nat)
    (hne : cookies ≠ [])
    (hjson : libs.jsonDec (libs.jsonEnc ⟨cookies, uid⟩) = some ⟨cookies, uid⟩)
    (hscheme : SessionCache.decrypt_data libs cipher
        (SessionCache.encrypt_data libs cipher (libs.jsonEnc ⟨cookies, uid⟩))
      = some (libs.jsonEnc ⟨cookies, uid⟩))
    (hnotexp : ¬ now + hours * 3600 < now2) :
    (SessionCache.save libs cipher s account provider cookies uid uname hours now).2 = true ∧
    (SessionCache.load libs cipher
        (SessionCache.save libs cipher s account provider cookies uid uname hours now).1
        account provider now2).1 =
      some { account_name := account, provider := provider, username := uname
             created_at := now, expires_at := now + hours * 3600
             cookies := cookies, user_id := uid } := by
  refine ⟨rfl, ?_⟩
  have hkey : (SessionCache.save libs cipher s account provider cookies uid uname hours now).1
      (provider, account) =
      some (SessionCache.FileContent.valid
        { account_name := account, provider := provider
          encrypted_data :=
            SessionCache.encrypt_data libs cipher (libs.jsonEnc ⟨cookies, uid⟩)
          username := uname, created_at := now, expires_at := now + hours * 3600 }) := by
    simp [SessionCache.save, SessionCache.storeSet]
  unfold SessionCache.load
  rw [hkey]
  simp [hnotexp, hscheme, hjson]

/-- Witness for C1 at concrete inputs, once with the Fernet cipher configured
and once with the Base64 fallback. -/
theorem sessionCache_save_load_roundtrip_witness :
    (SessionCache.load testLibs (some testCipher)
        (SessionCache.save testLibs (some testCipher) emptyStore "acc" "prov"
          demoCookies (some "42") (some "bob") 24 1000).1 "acc" "prov" 2000).1 =
      some { account_name := "acc", provider := "prov", username := some "bob"
             created_at := 1000, expires_at := 1000 + 24 * 3600
             cookies := demoCookies, user_id := some "42" } ∧
    (SessionCache.load testLibs none
        (SessionCache.save testLibs none emptyStore "acc" "prov"
          demoCookies (some "42") (some "bob") 24 1000).1 "acc" "prov" 2000).1 =
      some { account_name := "acc", provider := "prov", username := some "bob"
             created_at := 1000, expires_at := 1000 + 24 * 3600
             cookies := demoCookies, user_id := some "42" } :=
  ⟨(sessionCache_save_load_roundtrip testLibs (some testCipher) emptyStore "acc" "prov"
      demoCookies (some "42") (some "bob") 24 1000 2000
      (by decide) (by decide) (by decide) (by decide)).2,
   (sessionCache_save_load_roundtrip testLibs none emptyStore "acc" "prov"
      demoCookies (some "42") (some "bob") 24 1000 2000
      (by decide) (by decide) (by decide) (by decide)).2⟩

/-- C2 counterexample: a stored, unexpired cache file whose encrypted blob
decrypts under no scheme makes `load` return `None`, but the file is NOT
deleted — it is still present in the store afterwards, contradicting the
claim that corruption always deletes the file. -/
theorem sessionCache_corrupt_no_delete_cex :
    (SessionCache.load testLibs (some testCipher) corruptStore "acc" "prov" 10).1 = none ∧
    (SessionCache.load testLibs (some testCipher) corruptStore "acc" "prov" 10).2
      ("prov", "acc") = some (.valid corruptFile) := by
  constructor <;> rfl

/-- C2 (amended): for a stored, unexpired cache file, a blob that fails
decryption/decoding makes `load` return `None` with the file left in place,
while a blob that decrypts to a string that is not valid JSON makes `load`
return `None` and delete the file. -/
theorem sessionCache_load_corrupt_behavior
    (libs : Libs) (cipher : Option Cipher) (s : SessionCache.Store)
    (account provider : String) (now : Nat) (cf : SessionCache.CacheFile)
    (hfile : s (provider, account) = some (.valid cf))
    (hnotexp : ¬ cf.expires_at < now) :
    (SessionCache.decrypt_data libs cipher cf.encrypted_data = none →
      (SessionCache.load libs cipher s account provider now).1 = none ∧
      (SessionCache.load libs cipher s account provider now).2 = s) ∧
    (∀ plain, SessionCache.decrypt_data libs cipher cf.encrypted_data = some plain →
      libs.jsonDec plain = none →
      (SessionCache.load libs cipher s account provider now).1 = none ∧
      (SessionCache.load libs cipher s account provider now).2 (provider, account) = none) := by
  constructor
  · intro hdec
    unfold SessionCache.load
    rw [hfile]
    simp [hnotexp, hdec]
  · intro plain hdec hjson
    unfold SessionCache.load
    rw [hfile]
    simp [hnotexp, hdec, hjson, SessionCache.delete, SessionCache.storeErase, hfile]

/-- Witness for the amended C2 at a concrete input exercising the deleting
branch: the blob decrypts but its plaintext is rejected by the JSON parser,
so the file is removed. -/
theorem sessionCache_load_corrupt_behavior_witness :
    (SessionCache.load testLibs (some testCipher) badJsonStore "acc" "prov" 10).1 = none ∧
    (SessionCache.load testLibs (some testCipher) badJsonStore "acc" "prov" 10).2
      ("prov", "acc") = none :=
  (sessionCache_load_corrupt_behavior testLibs (some testCipher) badJsonStore
      "acc" "prov" 10 badJsonFile (by rfl) (by decide)).2 "bad" (by rfl) (by rfl)

/-- C3: an entry whose `expires_at` lies before the current time is never
returned by `load`: the entry is deleted and `None` is returned, regardless
of the rest of the payload. -/
theorem sessionCache_load_expired_deletes
    (libs : Libs) (cipher : Option Cipher) (s : SessionCache.Store)
    (account provider : String) (now : Nat) (cf : SessionCache.CacheFile)
    (hfile : s (provider, account) = some (.valid cf))
    (hexp : cf.expires_at < now) :
    (SessionCache.load libs cipher s account provider now).1 = none ∧
    (SessionCache.load libs cipher s account provider now).2 (provider, account) = none := by
  unfold SessionCache.load
  rw [hfile]
  simp [hexp, SessionCache.delete, SessionCache.storeErase, hfile]

/-- Witness for C3 at a concrete expired entry (its blob is corrupt, showing
expiry wins regardless of payload validity). -/
theorem sessionCache_load_expired_deletes_witness :
    (SessionCache.load testLibs (some testCipher) corruptStore "acc" "prov" 999999).1 = none ∧
    (SessionCache.load testLibs (some testCipher) corruptStore "acc" "prov" 999999).2
      ("prov", "acc") = none :=
  sessionCache_load_expired_deletes testLibs (some testCipher) corruptStore
    "acc" "prov" 999999 corruptFile (by rfl) (by decide)

/-! ## Claims about the validators -/

/-- C4: when the authoritative identity endpoint (called with the candidate
cookies, redirects not followed) answers 200 with a JSON content type, a
truthy success flag and identity fields, the verdict is valid with exactly
that identity, and neither the localStorage source, nor page extraction, nor
the heuristic fallback is consulted. -/
theorem cookiesAuth_api_precedence (env : PrecheckEnv) (r : ApiResponse)
    (b : ApiBody) (d : UserData)
    (hnav : env.navResults.any id = true)
    (hcf : hasCfIndicator env.pageContent = false)
    (hapi : env.api = some r)
    (hst : r.status = 200)
    (hct : containsStr (strToLower r.contentType) "application/json" = true)
    (hbody : r.body = some b)
    (hsucc : b.success = true)
    (hdata : b.data = some d)
    (hid : (strTruthy (pyOr (pyOr d.id d.user_id) d.userId)
         || strTruthy (pyOr (pyOr d.username d.name) d.email)) = true) :
    (validate_cookies_with_precheck env).1 =
      { valid := true
        user_id := if strTruthy (pyOr (pyOr d.id d.user_id) d.userId) then
            pyOr (pyOr d.id d.user_id) d.userId
          else none
        username := pyOr (pyOr d.username d.name) d.email
        error := none } ∧
    Ev.lsExtract ∉ (validate_cookies_with_precheck env).2 ∧
    Ev.pageExtract ∉ (validate_cookies_with_precheck env).2 ∧
    Ev.heuristicFallback ∉ (validate_cookies_with_precheck env).2 := by
  unfold validate_cookies_with_precheck precheck_rest
  simp [hnav, hcf, hapi, hst, hct, hbody, hsucc, hdata, hid, List.mem_replicate]

/-- Witness for C4 at a concrete environment in which every later source
would yield the different identity 999. -/
theorem cookiesAuth_api_precedence_witness :
    (validate_cookies_with_precheck c4Env).1 =
      { valid := true, user_id := some "42", username := some "bob", error := none } ∧
    Ev.lsExtract ∉ (validate_cookies_with_precheck c4Env).2 := by
  have h := cookiesAuth_api_precedence c4Env c4Resp
    { success := true, data := some c4Data } c4Data
    (by decide) (by decide) (by decide) (by decide) (by decide) (by decide)
    (by decide) (by decide) (by decide)
  refine ⟨?_, h.2.1⟩
  rw [h.1]
  decide

/-- C5 (amended, positive part): in the password-form login success check, a
cookie jar whose names all come from the protective/firewall vocabulary
yields `(False, reason)` — an invalid verdict with a machine-readable
reason — regardless of the current URL. -/
theorem email_waf_only_invalid (env : CheckEnv)
    (hwaf : ∀ kv ∈ dictOfCookies env.cookies, kv.1 ∈ wafOnlyCookieNames) :
    (check_login_success env).1 = false ∧ (check_login_success env).2.isSome = true := by
  unfold check_login_success
  cases hmsg : check_error_messages env.errorTexts with
  | some m => simp
  | none =>
    have hsess : (sessionCookieNames.any
        (fun n => dictHasKey (dictOfCookies env.cookies) n)) = false := by
      by_contra hc
      rw [Bool.not_eq_false, List.any_eq_true] at hc
      obtain ⟨n, hn, hkey⟩ := hc
      rw [dictHasKey, List.any_eq_true] at hkey
      obtain ⟨kv, hkv, heq⟩ := hkey
      have hmem := hwaf kv hkv
      rw [of_decide_eq_true heq] at hmem
      fin_cases hn <;> exact absurd hmem (by decide)
    have hfilter : ((dictOfCookies env.cookies).filter
        (fun kv => !wafOnlyCookieNames.any (fun n => n = kv.1))).length = 0 := by
      rw [List.length_eq_zero, List.filter_eq_nil_iff]
      intro kv hkv
      have hmem := hwaf kv hkv
      have hany : wafOnlyCookieNames.any (fun n => n = kv.1) = true := by
        rw [List.any_eq_true]
        exact ⟨kv.1, hmem, by simp⟩
      simp [hany]
    simp [hsess, hfilter]

/-- Witness for the amended C5 at a concrete jar of two firewall cookies on
a page whose UI signals would otherwise look logged-in. -/
theorem email_waf_only_invalid_witness :
    (check_login_success wafOnlyCheckEnv).1 = false ∧
    (check_login_success wafOnlyCheckEnv).2.isSome = true :=
  email_waf_only_invalid wafOnlyCheckEnv (by decide)

/-- C5 counterexample: the cookies-authenticator precheck lacks the
only-WAF-cookies guard — with a jar holding only `acw_tc`, no identity from
any source and a non-login page, its heuristic fallback returns a VALID
verdict carrying the account label, contradicting the claim that such a set
is always judged invalid. -/
theorem cookiesPrecheck_waf_only_valid_cex :
    (validate_cookies_with_precheck wafOnlyPrecheckEnv).1 =
      { valid := true, user_id := some "acct1", username := none, error := none } ∧
    Ev.heuristicFallback ∈ (validate_cookies_with_precheck wafOnlyPrecheckEnv).2 := by
  constructor <;> decide

/-! ## Claims about the OAuth acquisition prefix -/

/-- Helper: the cache short-circuit of the shared OAuth prefix. -/
theorem oauth_prefix_cache_hit {α : Type} (env : OAuthEnv α)
    (m1 m2 m3 : String) (cd : CachedSession)
    (hskip : env.skipInCI = false) (hload : env.cacheLoad = some cd)
    (hc : cd.cookies ≠ []) (hadd : env.addCookiesOk = true)
    (huid : strTruthy cd.user_id = true) :
    oauth_authenticate_entry env m1 m2 m3 =
      (.success (dictOfCookies cd.cookies) cd.user_id cd.username, []) := by
  unfold oauth_authenticate_entry
  simp [hskip, hload, hc, hadd, huid]

/-- C6 (amended): when `SessionCache.load` hands an OAuth authenticator an
unexpired entry with a NONEMPTY cookie list and a truthy user_id (and
restoring the cookies does not throw), both OAuth authenticators return
success immediately with the cached identity and cookies, and the event
trace is empty: no acquisition channel, navigation or form interaction runs. -/
theorem oauth_cache_short_circuit
    (envL : OAuthEnv String) (envG : OAuthEnv GithubOAuthParams)
    (cdL cdG : CachedSession)
    (hLskip : envL.skipInCI = false) (hLload : envL.cacheLoad = some cdL)
    (hLc : cdL.cookies ≠ []) (hLadd : envL.addCookiesOk = true)
    (hLuid : strTruthy cdL.user_id = true)
    (hGskip : envG.skipInCI = false) (hGload : envG.cacheLoad = some cdG)
    (hGc : cdG.cookies ≠ []) (hGadd : envG.addCookiesOk = true)
    (hGuid : strTruthy cdG.user_id = true) :
    linuxdo_authenticate_entry envL =
      (.success (dictOfCookies cdL.cookies) cdL.user_id cdL.username, []) ∧
    github_authenticate_entry envG =
      (.success (dictOfCookies cdG.cookies) cdG.user_id cdG.username, []) :=
  ⟨oauth_prefix_cache_hit envL _ _ _ cdL hLskip hLload hLc hLadd hLuid,
   oauth_prefix_cache_hit envG _ _ _ cdG hGskip hGload hGc hGadd hGuid⟩

/-- Witness for the amended C6 at concrete cache-hit environments. -/
theorem oauth_cache_short_circuit_witness :
    linuxdo_authenticate_entry cacheHitEnvL =
      (.success (dictOfCookies demoCookies) (some "42") (some "bob"), []) ∧
    github_authenticate_entry cacheHitEnvG =
      (.success (dictOfCookies demoCookies) (some "42") (some "bob"), []) :=
  oauth_cache_short_circuit cacheHitEnvL cacheHitEnvG cacheHitSession cacheHitSession
    (by decide) (by decide) (by decide) (by decide) (by decide)
    (by decide) (by decide) (by decide) (by decide) (by decide)

/-- C6 counterexample: a cache entry carrying user_id "42" but an empty
cookie list does NOT short-circuit — the authenticator runs the full
acquisition flow (nonempty trace) and here ends in failure, contradicting
the claim that any entry carrying a user_id returns success immediately. -/
theorem oauth_cache_hit_empty_cookies_cex :
    (linuxdo_authenticate_entry emptyCacheCookiesEnvL).1 =
      .failure "Failed to get LinuxDO client_id after 3 retries" ∧
    Ev.initPage ∈ (linuxdo_authenticate_entry emptyCacheCookiesEnvL).2 := by
  constructor <;> decide

/-- Helper: the recovery actions never contain the initial-enhancement
event. -/
theorem enhanceInitial_not_in_recovery (retry : Nat) :
    Ev.enhanceInitial ∉ retryRecoveryEvents retry := by
  unfold retryRecoveryEvents
  split_ifs <;> simp

/-- Helper: the parameter-retrieval loop never emits the initial-enhancement
event. -/
theorem enhanceInitial_not_in_loop {α : Type} (env : OAuthEnv α) :
    ∀ rs dict, Ev.enhanceInitial ∉ (oauth_param_loop env rs dict).2.2 := by
  intro rs
  induction rs with
  | nil => intro dict; simp [oauth_param_loop]
  | cons retry rest ih =>
    intro dict
    have hrec := enhanceInitial_not_in_recovery retry
    unfold oauth_param_loop
    rcases h : env.paramSeq retry with _ | p
    · simp only [h]
      split_ifs with h1 h2 <;> simp_all [List.mem_append]
    · simp_all [List.mem_append]

/-- Helper: with at least 2 cookies from the primary channel, the
acquisition flow never runs the enhancement cascade at the initial step. -/
theorem enhanceInitial_not_in_continue {α : Type} (env : OAuthEnv α)
    (m2 m3 : String)
    (h : 2 ≤ (dictOfCookies (env.cookiesSeq 0)).length) :
    Ev.enhanceInitial ∉ (oauth_continue_flow env m2 m3).2 := by
  have hlt : ¬ (dictOfCookies (env.cookiesSeq 0)).length < 2 := by omega
  have hloop := enhanceInitial_not_in_loop env [0, 1, 2]
    (dictOfCookies (env.cookiesSeq 0))
  unfold oauth_continue_flow
  cases hinit : env.initPageOk with
  | false => simp
  | true =>
    simp only [Bool.not_true, Bool.false_eq_true, if_false, if_neg hlt]
    rcases hres : (oauth_param_loop env [0, 1, 2]
        (dictOfCookies (env.cookiesSeq 0))).1 with _ | p <;>
      simp_all [List.mem_append]

/-- Helper: with at least 2 cookies from the primary channel, the shared
prefix never runs the enhancement cascade at the initial acquisition step. -/
theorem oauth_prefix_no_enhanceInitial {α : Type} (env : OAuthEnv α)
    (m1 m2 m3 : String)
    (h : 2 ≤ (dictOfCookies (env.cookiesSeq 0)).length) :
    Ev.enhanceInitial ∉ (oauth_authenticate_entry env m1 m2 m3).2 := by
  have hcont := enhanceInitial_not_in_continue env m2 m3 h
  unfold oauth_authenticate_entry
  cases hskip : env.skipInCI with
  | true => simp
  | false =>
    simp only [Bool.false_eq_true, if_false]
    cases hcache : env.cacheLoad with
    | none => exact hcont
    | some cd =>
      by_cases hc : cd.cookies = [] <;>
        by_cases hadd : env.addCookiesOk = true <;>
          by_cases huid : strTruthy cd.user_id = true <;>
            simp_all

/-- C7: if the primary browser channel yields at least the enhancement
threshold of 2 cookies, neither OAuth authenticator invokes the
cloudscraper/fallback enhancement at the initial cookie-acquisition step
(equivalently, the secondary channel runs there only below the threshold). -/
theorem oauth_cascade_ordering
    (envL : OAuthEnv String) (envG : OAuthEnv GithubOAuthParams)
    (hL : 2 ≤ (dictOfCookies (envL.cookiesSeq 0)).length)
    (hG : 2 ≤ (dictOfCookies (envG.cookiesSeq 0)).length) :
    Ev.enhanceInitial ∉ (linuxdo_authenticate_entry envL).2 ∧
    Ev.enhanceInitial ∉ (github_authenticate_entry envG).2 :=
  ⟨oauth_prefix_no_enhanceInitial envL _ _ _ hL,
   oauth_prefix_no_enhanceInitial envG _ _ _ hG⟩

/-- Witness for C7 at concrete environments with exactly 2 initial cookies. -/
theorem oauth_cascade_ordering_witness :
    Ev.enhanceInitial ∉ (linuxdo_authenticate_entry allFailEnvL).2 ∧
    Ev.enhanceInitial ∉ (github_authenticate_entry allFailEnvG).2 :=
  oauth_cascade_ordering allFailEnvL allFailEnvG (by decide) (by decide)

/-- Helper: trace and result of the acquisition flow when all three
parameter-retrieval attempts fail (no initial enhancement, non-CI run). -/
theorem oauth_continue_all_fail {α : Type} (env : OAuthEnv α) (m2 m3 : String)
    (hinit : env.initPageOk = true) (hci : env.isCI = false)
    (hc0 : 2 ≤ (dictOfCookies (env.cookiesSeq 0)).length)
    (hp0 : env.paramSeq 0 = none) (hp1 : env.paramSeq 1 = none)
    (hp2 : env.paramSeq 2 = none) :
    (oauth_continue_flow env m2 m3).2 =
      [Ev.initPage, Ev.waitMs 10000, Ev.cookiesRead,
       Ev.cookiesRead, Ev.paramAttempt,
       Ev.waitMs 10000, Ev.reloadPage, Ev.waitMs 5000, Ev.cookiesRead, Ev.paramAttempt,
       Ev.waitMs 20000, Ev.gotoLogin, Ev.waitMs 10000, Ev.cookiesRead, Ev.paramAttempt,
       Ev.enhanceFinal] ++ (if env.wafFinal = [] then [] else [Ev.paramAttempt]) ∧
    ((env.wafFinal = [] ∨ env.paramSeq 3 = none) →
      (oauth_continue_flow env m2 m3).1 = .failure m2) := by
  have hlt : ¬ (dictOfCookies (env.cookiesSeq 0)).length < 2 := by omega
  by_cases hw : env.wafFinal = []
  · constructor
    · simp [oauth_continue_flow, oauth_param_loop, retryRecoveryEvents,
        hinit, hci, hlt, hp0, hp1, hp2, hw]
    · intro _
      simp [oauth_continue_flow, oauth_param_loop, retryRecoveryEvents,
        hinit, hci, hlt, hp0, hp1, hp2, hw]
  · constructor
    · rcases h3 : env.paramSeq 3 with _ | p <;>
        simp [oauth_continue_flow, oauth_param_loop, retryRecoveryEvents,
          hinit, hci, hlt, hp0, hp1, hp2, hw, h3]
    · intro hor
      rcases hor with hw2 | hp3
      · exact absurd hw2 hw
      · simp [oauth_continue_flow, oauth_param_loop, retryRecoveryEvents,
          hinit, hci, hlt, hp0, hp1, hp2, hw, hp3]

/-- C9 (amended): on a cache miss with an adequate initial jar, parameter
retrieval is attempted at most 3 times — a 10 s wait then a page reload
before the second attempt, a 20 s wait then a re-navigation to the login
page before the third; when all 3 fail, exactly one cloudscraper
enhancement pass runs, followed by exactly one more retrieval attempt ONLY
when the pass yields a nonempty cookie set; when it yields nothing (or the
extra attempt also fails), failure is surfaced to the caller. -/
theorem oauth_param_retry_schedule
    (envL : OAuthEnv String) (envG : OAuthEnv GithubOAuthParams)
    (hLskip : envL.skipInCI = false) (hLcache : envL.cacheLoad = none)
    (hLinit : envL.initPageOk = true) (hLci : envL.isCI = false)
    (hLc0 : 2 ≤ (dictOfCookies (envL.cookiesSeq 0)).length)
    (hLp0 : envL.paramSeq 0 = none) (hLp1 : envL.paramSeq 1 = none)
    (hLp2 : envL.paramSeq 2 = none)
    (hGskip : envG.skipInCI = false) (hGcache : envG.cacheLoad = none)
    (hGinit : envG.initPageOk = true) (hGci : envG.isCI = false)
    (hGc0 : 2 ≤ (dictOfCookies (envG.cookiesSeq 0)).length)
    (hGp0 : envG.paramSeq 0 = none) (hGp1 : envG.paramSeq 1 = none)
    (hGp2 : envG.paramSeq 2 = none) :
    ((linuxdo_authenticate_entry envL).2 =
      [Ev.initPage, Ev.waitMs 10000, Ev.cookiesRead,
       Ev.cookiesRead, Ev.paramAttempt,
       Ev.waitMs 10000, Ev.reloadPage, Ev.waitMs 5000, Ev.cookiesRead, Ev.paramAttempt,
       Ev.waitMs 20000, Ev.gotoLogin, Ev.waitMs 10000, Ev.cookiesRead, Ev.paramAttempt,
       Ev.enhanceFinal] ++ (if envL.wafFinal = [] then [] else [Ev.paramAttempt]) ∧
     ((envL.wafFinal = [] ∨ envL.paramSeq 3 = none) →
       (linuxdo_authenticate_entry envL).1 =
         .failure "Failed to get LinuxDO client_id after 3 retries")) ∧
    ((github_authenticate_entry envG).2 =
      [Ev.initPage, Ev.waitMs 10000, Ev.cookiesRead,
       Ev.cookiesRead, Ev.paramAttempt,
       Ev.waitMs 10000, Ev.reloadPage, Ev.waitMs 5000, Ev.cookiesRead, Ev.paramAttempt,
       Ev.waitMs 20000, Ev.gotoLogin, Ev.waitMs 10000, Ev.cookiesRead, Ev.paramAttempt,
       Ev.enhanceFinal] ++ (if envG.wafFinal = [] then [] else [Ev.paramAttempt]) ∧
     ((envG.wafFinal = [] ∨ envG.paramSeq 3 = none) →
       (github_authenticate_entry envG).1 =
         .failure "Failed to get GitHub OAuth parameters after 3 retries")) := by
  have hLred : linuxdo_authenticate_entry envL =
      oauth_continue_flow envL "Failed to get LinuxDO client_id after 3 retries"
        " (CI environment detected - Linux.do authentication may require manual setup or disabling via CI_DISABLED_AUTH_METHODS=linux.do)" := by
    unfold linuxdo_authenticate_entry oauth_authenticate_entry
    simp [hLskip, hLcache]
  have hGred : github_authenticate_entry envG =
      oauth_continue_flow envG "Failed to get GitHub OAuth parameters after 3 retries"
        " (CI environment detected - GitHub authentication may require manual cookie setup or disabling via CI_DISABLED_AUTH_METHODS=github)" := by
    unfold github_authenticate_entry oauth_authenticate_entry
    simp [hGskip, hGcache]
  rw [hLred, hGred]
  exact ⟨oauth_continue_all_fail envL _ _ hLinit hLci hLc0 hLp0 hLp1 hLp2,
         oauth_continue_all_fail envG _ _ hGinit hGci hGc0 hGp0 hGp1 hGp2⟩

/-- Witness for the amended C9 at concrete all-failing environments with an
empty enhancement yield. -/
theorem oauth_param_retry_schedule_witness :
    (linuxdo_authenticate_entry allFailEnvL).2 =
      [Ev.initPage, Ev.waitMs 10000, Ev.cookiesRead,
       Ev.cookiesRead, Ev.paramAttempt,
       Ev.waitMs 10000, Ev.reloadPage, Ev.waitMs 5000, Ev.cookiesRead, Ev.paramAttempt,
       Ev.waitMs 20000, Ev.gotoLogin, Ev.waitMs 10000, Ev.cookiesRead, Ev.paramAttempt,
       Ev.enhanceFinal] ∧
    (linuxdo_authenticate_entry allFailEnvL).1 =
      .failure "Failed to get LinuxDO client_id after 3 retries" ∧
    (github_authenticate_entry allFailEnvG).1 =
      .failure "Failed to get GitHub OAuth parameters after 3 retries" := by
  have h := oauth_param_retry_schedule allFailEnvL allFailEnvG
    (by decide) (by decide) (by decide) (by decide) (by decide) (by decide)
    (by decide) (by decide) (by decide) (by decide) (by decide) (by decide)
    (by decide) (by decide) (by decide) (by decide)
  refine ⟨?_, h.1.2 (Or.inl (by decide)), h.2.2 (Or.inl (by decide))⟩
  rw [h.1.1]
  decide

/-- C9 counterexample: when the final enhancement pass yields no cookies, NO
further retrieval attempt is made — the trace holds exactly 3 parameter
attempts (not 4) before failure is surfaced, contradicting the claim that an
extra attempt always follows the enhancement pass. -/
theorem oauth_enhancement_no_extra_attempt_cex :
    (linuxdo_authenticate_entry allFailEnvL).2.count Ev.paramAttempt = 3 ∧
    Ev.enhanceFinal ∈ (linuxdo_authenticate_entry allFailEnvL).2 ∧
    (linuxdo_authenticate_entry allFailEnvL).1 =
      .failure "Failed to get LinuxDO client_id after 3 retries" := by
  refine ⟨by decide, by decide, by decide⟩

/-! ## Claims about the challenge waiter -/

/-- Helper: under a page that never clears the interstitial and never shows
a login form, the polling loop never reports a pass. -/
theorem challenge_poll_loop_stuck (obs : Nat → PageObs)
    (hmark : ∀ i, hasCfMarkers (obs i).content = true)
    (hform : ∀ i, (obs i).loginIndicators = 0) :
    ∀ fuel idx, (challenge_poll_loop obs idx fuel).1 = false := by
  intro fuel
  induction fuel with
  | zero => intro idx; rfl
  | succ n ih =>
    intro idx
    unfold challenge_poll_loop
    by_cases ht : titleBusy (obs idx).title = true
    · simp [hmark idx, ht, ih]
    · simp [hmark idx, hform idx, ht, ih]

/-- C8: when the anti-bot markers never clear and every attempt's poll
budget is exhausted, the challenge waiter still reports success (True), the
soft page-refresh recovery having run before the second attempt and the hard
re-navigation to the login page before the third. -/
theorem challenge_waiter_optimistic (env : ChallengeEnv)
    (hskip : env.skipCheck = false)
    (hmark : ∀ i, hasCfMarkers (env.obs i).content = true)
    (hform : ∀ i, (env.obs i).loginIndicators = 0) :
    (wait_for_cloudflare_challenge env).1 = true ∧
    (wait_for_cloudflare_challenge env).2 =
      [Ev.challengeAttempt 0, Ev.reloadPage, Ev.challengeAttempt 1,
       Ev.gotoLogin, Ev.challengeAttempt 2] := by
  have hpoll := challenge_poll_loop_stuck env.obs hmark hform
  unfold wait_for_cloudflare_challenge
  simp [hskip, challenge_retry_loop, hpoll]

/-- Witness for C8 at a concrete permanently-stuck page. -/
theorem challenge_waiter_optimistic_witness :
    (wait_for_cloudflare_challenge stuckChallengeEnv).1 = true ∧
    (wait_for_cloudflare_challenge stuckChallengeEnv).2 =
      [Ev.challengeAttempt 0, Ev.reloadPage, Ev.challengeAttempt 1,
       Ev.gotoLogin, Ev.challengeAttempt 2] := by
  refine challenge_waiter_optimistic stuckChallengeEnv (by decide) ?_ ?_ <;>
    intro i <;> exact rfl

/-! ## Claims about cache-write guards -/

/-- Helper: a true verdict of the email login-success check implies the URL
is not a login page and a recognized session cookie is present or the jar
holds more than 5 cookies. -/
theorem check_login_success_true (cenv : CheckEnv)
    (h : (check_login_success cenv).1 = true) :
    containsStr (strToLower cenv.url) "login" = false ∧
    (sessionCookieNames.any
        (fun n => dictHasKey (dictOfCookies cenv.cookies) n) = true
      ∨ 5 < (dictOfCookies cenv.cookies).length) := by
  unfold check_login_success at h
  cases hmsg : check_error_messages cenv.errorTexts with
  | some m => simp [hmsg] at h
  | none =>
    simp only [hmsg] at h
    split_ifs at h with h1 h2 h3 h4 h5 <;> simp_all

/-- C10 (amended): a session is written to the cache by the password-form
authenticator only after its login-success check passed, i.e. only when the
page URL does not contain "login" and either a recognized session-cookie
name is present or the cookie dict holds more than 5 entries; an identity
(user_id/username) is NOT required for a cache write. -/
theorem email_save_guard (env : EmailEnv) (a p : String) (cs : List Cookie)
    (uid uname : Option String)
    (hmem : Ev.saveSession a p cs uid uname ∈ (email_authenticate env).2) :
    (check_login_success env.check).1 = true ∧
    containsStr (strToLower env.check.url) "login" = false ∧
    (sessionCookieNames.any
        (fun n => dictHasKey (dictOfCookies env.check.cookies) n) = true
      ∨ 5 < (dictOfCookies env.check.cookies).length) := by
  rcases hchk : (check_login_success env.check).1 with _ | _
  · exfalso
    unfold email_authenticate at hmem
    rcases hfill : env.fillPasswordError with _ | e <;>
      simp only [hfill, hchk] at hmem <;>
        split_ifs at hmem <;> simp_all
  · exact ⟨rfl, check_login_success_true env.check hchk⟩

/-- Witness for the amended C10: a save with no identity occurs, and the
guard holds of the checked jar. -/
theorem email_save_guard_witness :
    (check_login_success emailSaveEnv.check).1 = true ∧
    containsStr (strToLower emailSaveEnv.check.url) "login" = false ∧
    (sessionCookieNames.any
        (fun n => dictHasKey (dictOfCookies emailSaveEnv.check.cookies) n) = true
      ∨ 5 < (dictOfCookies emailSaveEnv.check.cookies).length) :=
  email_save_guard emailSaveEnv "acct1" "prov" sessionOnlyCookies none none (by decide)

/-- C10 counterexample: the email authenticator writes a session to the
cache that carries NO identity (user_id and username both None) and only a
single cookie — so a session can be cached without an identity and without
any cookie count exceeding a threshold, contradicting the claimed
invariant's disjunction. -/
theorem email_save_no_identity_cex :
    Ev.saveSession "acct1" "prov" sessionOnlyCookies none none
      ∈ (email_authenticate emailSaveEnv).2 ∧
    (dictOfCookies sessionOnlyCookies).length = 1 ∧
    (email_authenticate emailSaveEnv).1.user_id = none ∧
    (email_authenticate emailSaveEnv).1.username = none := by
  refine ⟨by decide, by decide, by decide, by decide⟩

end RegularInspection
